import Mathlib

/-!
Shallow embedding of the EpiWatch analytics core (dataPreprocessor.js,
anomalyDetector, forecaster.js, riskClassifier.js) over exact rationals.

Modelling conventions:
* JS numbers are modelled as `ℚ` (exact arithmetic); `Math.round x` is
  `⌊x + 1/2⌋`, matching JS round-half-up semantics.
* Timestamps are epoch milliseconds (`ℤ`); ISO-8601 serialisation is an
  injection ℤ → String and is left implicit (object keys / output fields
  keep the numeric timestamp).  Local time is taken to be UTC.
* `Math.sqrt` is kept as an explicit function parameter `sqrt : ℚ → ℚ`
  wherever the source calls it; theorems assume only properties the real
  square root has (`sqrt 0 = 0`, nonnegativity).  Concrete evaluations
  instantiate it with `ratSqrt`, which agrees with the real square root
  whenever the argument is the square of a rational — which is the case at
  every concrete input used below.
* JS objects with string keys are association lists in insertion order
  (string keys preserve insertion order in JS).
* Human-readable `message` strings that merely interpolate already-present
  numeric fields are modelled by the interpolated data (`AlertPayload`).
-/

namespace EpiWatch

/-- JS `Math.round`: round half toward +∞. -/
def jsRound (q : ℚ) : ℤ := ⌊q + 1/2⌋

/-- `Math.round(x * 100) / 100` — two-decimal rounding used throughout. -/
def round2 (q : ℚ) : ℚ := (jsRound (q * 100) : ℚ) / 100

/-- `Math.round(x * 1000) / 1000` — three-decimal rounding (correlations). -/
def round3 (q : ℚ) : ℚ := (jsRound (q * 1000) : ℚ) / 1000

/-- Exact rational square root: correct (equal to the real square root)
whenever the argument is the square of a rational, used to instantiate the
`sqrt` parameter on concrete inputs.  Nonnegative everywhere. -/
def ratSqrt (q : ℚ) : ℚ :=
  if q ≤ 0 then 0 else (Nat.sqrt q.num.toNat : ℚ) / (Nat.sqrt q.den : ℚ)

/-- JS `arr.slice(-n)`: the last `n` elements (all of them if shorter). -/
def sliceLast (n : ℕ) (l : List α) : List α := l.drop (l.length - n)

/-- JS `arr.slice(-a, -b)` (with `a > b`): elements from `max(len-a,0)`
up to (excluding) `max(len-b,0)`. -/
def sliceNeg (a b : ℕ) (l : List α) : List α :=
  (l.drop (l.length - a)).take ((l.length - b) - (l.length - a))

/-- JS object property read with default: `m[k] || d` for numeric maps that
never store 0 behind a truthiness-sensitive read (`(m[k] || 0)`). -/
def lookupD (m : List (String × ℚ)) (k : String) (d : ℚ) : ℚ :=
  ((m.lookup k).getD d)

/-- Sum of the values of an association map. -/
def sumValues (m : List (String × ℚ)) : ℚ := (m.map (·.2)).sum

/-- `[...new Set(l)]`: deduplicate keeping first occurrences. -/
def dedup (l : List String) : List String :=
  l.foldl (fun acc s => if acc.contains s then acc else acc ++ [s]) []

/-- `m[k] = (m[k] || 0) + 1` on an insertion-ordered string-keyed object. -/
def bumpAssoc (k : String) : List (String × ℚ) → List (String × ℚ)
  | [] => [(k, 1)]
  | (k', v) :: rest =>
      if k' = k then (k', v + 1) :: rest else (k', v) :: bumpAssoc k rest

/-- Append a record to the group of key `k` (new groups go last), the way
`buckets[key].push(record)` grows a string-keyed JS object. -/
def pushGroup [DecidableEq K] (k : K) (r : α) :
    List (K × List α) → List (K × List α)
  | [] => [(k, [r])]
  | (k', g) :: rest =>
      if k' = k then (k', g ++ [r]) :: rest else (k', g) :: pushGroup k r rest

/-- Stable insertion sort by an order-valued rank (JS `Array.prototype.sort`
with a numeric comparator is required to be stable). -/
def insStable [LinearOrder β] (rank : α → β) (x : α) : List α → List α
  | [] => [x]
  | y :: ys =>
      if rank x ≤ rank y then x :: y :: ys else y :: insStable rank x ys

/-- Stable sort (ascending in `rank`). -/
def sortByRank [LinearOrder β] (rank : α → β) : List α → List α
  | [] => []
  | x :: xs => insStable rank x (sortByRank rank xs)

/-- JS `x || d` on a possibly-absent numeric property: `0`, like absence,
is falsy and falls through to the default. -/
def jsOrDefault (v : Option ℚ) (d : ℚ) : ℚ :=
  match v with
  | none => d
  | some x => if x = 0 then d else x

/-! ## Data model (inputs) -/

/-- A hospital admission record (`hospital_admissions.json` entry). -/
structure AdmissionRecord where
  timestamp : ℤ
  disease : String
  severity : String
  regionId : String
  patientAge : ℚ
  isAnomaly : Bool
deriving DecidableEq, Inhabited

/-- A water-quality sample (`water_quality.json` entry). -/
structure WaterSample where
  timestamp : ℤ
  regionId : String
  pH : ℚ
  turbidity : ℚ
  coliformCount : ℚ
  dissolvedOxygen : ℚ
  isAnomaly : Bool
deriving DecidableEq, Inhabited

/-- Static region reference data (`data/regions.js`). -/
structure Region where
  id : String
  name : String
  centerLat : ℚ
  centerLng : ℚ
  population : ℚ
  historicalRisk : ℚ
deriving DecidableEq, Inhabited

/-! ## DataPreprocessor -/

def msPerHour : ℤ := 3600000
def msPerDay : ℤ := 86400000

/-- Key computation of `timeBucket`: truncate the timestamp to the start of
its bucket (`setMinutes(0,0,0)` then
`setHours(floor(hours / bucketHours) * bucketHours)`, UTC). -/
def bucketStart (bucketHours : ℕ) (ts : ℤ) : ℤ :=
  let dayStart := ts - ts % msPerDay
  let hourOfDay := (ts - dayStart) / msPerHour
  dayStart + (hourOfDay / (bucketHours : ℤ)) * (bucketHours : ℤ) * msPerHour

/-- `DataPreprocessor.timeBucket`: group records into bucket-keyed lists in
insertion order. -/
def timeBucketBy (ts : α → ℤ) (records : List α) (bucketHours : ℕ) :
    List (ℤ × List α) :=
  records.foldl (fun gs r => pushGroup (bucketStart bucketHours (ts r)) r gs) []

/-- A 6-hour admission aggregate (one entry of `aggregateAdmissions`). -/
structure TimeBucket where
  timestamp : ℤ
  total : ℚ
  byDisease : List (String × ℚ)
  byRegion : List (String × ℚ)
  bySeverity : List (String × ℚ)
  avgAge : ℚ
  anomalyCount : ℚ
deriving DecidableEq, Inhabited

/-- One pass of `byX[key(r)] = (byX[key(r)] || 0) + 1` over the records. -/
def countRecords (key : AdmissionRecord → String) (init : List (String × ℚ))
    (rs : List AdmissionRecord) : List (String × ℚ) :=
  rs.foldl (fun m r => bumpAssoc (key r) m) init

/-- The aggregate built from the records of one bucket. -/
def mkBucket (ts : ℤ) (rs : List AdmissionRecord) : TimeBucket where
  timestamp := ts
  total := rs.length
  byDisease := countRecords (·.disease) [] rs
  byRegion := countRecords (·.regionId) [] rs
  bySeverity := countRecords (·.severity) [("Mild", 0), ("Moderate", 0), ("Severe", 0)] rs
  avgAge := (jsRound ((rs.map (·.patientAge)).sum / (rs.length : ℚ)) : ℚ)
  anomalyCount := ((rs.filter (·.isAnomaly)).length : ℚ)

/-- `DataPreprocessor.aggregateAdmissions`. -/
def aggregateAdmissions (admissions : List AdmissionRecord) (bucketHours : ℕ) :
    List TimeBucket :=
  sortByRank (·.timestamp)
    ((timeBucketBy (·.timestamp) admissions bucketHours).map
      (fun kg => mkBucket kg.1 kg.2))

/-- Per-region averages of one water bucket. -/
structure RegionWaterAvg where
  avgPH : ℚ
  avgTurbidity : ℚ
  avgColiform : ℚ
  avgDO : ℚ
  sampleCount : ℚ
  hasAnomaly : Bool
deriving DecidableEq, Inhabited

/-- A (typically daily) water-quality aggregate. -/
structure WaterBucket where
  timestamp : ℤ
  regionAverages : List (String × RegionWaterAvg)
deriving DecidableEq, Inhabited

def avgQ (l : List ℚ) : ℚ := l.sum / (l.length : ℚ)

/-- `DataPreprocessor.aggregateWaterQuality` (the per-field push arrays are
equivalently the field maps of the grouped sample list). -/
def aggregateWaterQuality (waterData : List WaterSample) (bucketHours : ℕ) :
    List WaterBucket :=
  sortByRank (·.timestamp)
    ((timeBucketBy (·.timestamp) waterData bucketHours).map fun kg =>
      { timestamp := kg.1
        regionAverages :=
          (kg.2.foldl (fun gs r => pushGroup r.regionId r gs) []).map fun rg =>
            (rg.1,
              { avgPH := round2 (avgQ (rg.2.map (·.pH)))
                avgTurbidity := round2 (avgQ (rg.2.map (·.turbidity)))
                avgColiform := (jsRound (avgQ (rg.2.map (·.coliformCount))) : ℚ)
                avgDO := round2 (avgQ (rg.2.map (·.dissolvedOxygen)))
                sampleCount := (rg.2.length : ℚ)
                hasAnomaly := rg.2.any (·.isAnomaly) }) })

/-! ## Water Quality Index -/

structure WQIParams where
  pH : ℚ
  turbidity : ℚ
  coliformCount : ℚ
  dissolvedOxygen : ℚ
  chlorineResidual : ℚ
deriving DecidableEq, Inhabited

def pHScore (pH : ℚ) : ℚ :=
  if 13/2 ≤ pH ∧ pH ≤ 17/2 then 100 - |pH - 7| * 20
  else max 0 (50 - |pH - 7| * 15)

def turbidityScore (t : ℚ) : ℚ := max 0 (100 - t * 5)

def coliformScore (c : ℚ) : ℚ := max 0 (100 - c * (1/2))

def doScore (d : ℚ) : ℚ := min 100 (d * 12)

def chlorineScore (c : ℚ) : ℚ :=
  if 1/5 ≤ c then min 100 (c * 100) else c * 200

/-- The weighted sub-score average inside `computeWQI`. -/
def wqiRaw (p : WQIParams) : ℚ :=
  pHScore p.pH * (15/100) + turbidityScore p.turbidity * (20/100)
    + coliformScore p.coliformCount * (30/100) + doScore p.dissolvedOxygen * (20/100)
    + chlorineScore p.chlorineResidual * (15/100)

/-- `DataPreprocessor.computeWQI`: weighted sub-scores, clamped to
`[0,100]`, rounded. -/
def computeWQI (p : WQIParams) : ℚ :=
  (jsRound (max 0 (min 100 (wqiRaw p))) : ℚ)

/-! ## AnomalyDetector -/

structure DetectorCfg where
  zThreshold : ℚ
  windowSize : ℕ
deriving DecidableEq, Inhabited

def defaultDetector : DetectorCfg := ⟨2, 20⟩

/-- `_stats`: mean of a list (`0` for the empty list). -/
def statsMean (values : List ℚ) : ℚ :=
  if values.length = 0 then 0 else values.sum / (values.length : ℚ)

/-- `_stats`: population variance (`0` for the empty list). -/
def statsVariance (values : List ℚ) : ℚ :=
  if values.length = 0 then 0
  else ((values.map (fun v => (v - statsMean values) ^ 2)).sum) / (values.length : ℚ)

/-- `_stats`: standard deviation, `Math.sqrt` abstracted as `sqrt`. -/
def statsStd (sqrt : ℚ → ℚ) (values : List ℚ) : ℚ :=
  if values.length = 0 then 0 else sqrt (statsVariance values)

/-- A point of a numeric time series (`{timestamp, value}`). -/
structure SeriesPoint where
  timestamp : ℤ
  value : ℚ
deriving DecidableEq, Inhabited

/-- One output row of `detectInSeries`. -/
structure AnomalySample where
  timestamp : ℤ
  value : ℚ
  mean : ℚ
  std : ℚ
  zScore : ℚ
  isAnomaly : Bool
deriving DecidableEq, Inhabited

/-- `AnomalyDetector.detectInSeries`: trailing-window Z-scores.  The window
for index `i` is `slice(max(0, i - windowSize), i + 1)`. -/
def detectInSeries (cfg : DetectorCfg) (sqrt : ℚ → ℚ) (series : List SeriesPoint) :
    List AnomalySample :=
  series.enum.map fun is =>
    let i := is.1
    let windowValues :=
      (((series.drop (i - cfg.windowSize)).take (i + 1 - (i - cfg.windowSize))).map (·.value))
    let mean := statsMean windowValues
    let std := statsStd sqrt windowValues
    let z := if std = 0 then 0 else (is.2.value - mean) / std
    { timestamp := is.2.timestamp
      value := is.2.value
      mean := round2 mean
      std := round2 std
      zScore := round2 z
      isAnomaly := decide (|z| > cfg.zThreshold) }

/-- The `{overall, byDisease, byRegion}` result of
`detectAdmissionAnomalies`. -/
structure AnomalyReport where
  overall : List AnomalySample
  byDisease : List (String × List AnomalySample)
  byRegion : List (String × List AnomalySample)
deriving DecidableEq, Inhabited

def fixedDiseases : List String := ["Cholera", "Typhoid", "Dengue", "Malaria"]

/-- Region ids appearing across buckets, in first-appearance order
(`[...new Set(agg.flatMap(a => Object.keys(a.byRegion)))]`). -/
def regionIdsOf (agg : List TimeBucket) : List String :=
  dedup ((agg.map (fun a => a.byRegion.map (·.1))).flatten)

def diseaseSeries (agg : List TimeBucket) (d : String) : List SeriesPoint :=
  agg.map fun a => ⟨a.timestamp, lookupD a.byDisease d 0⟩

def regionSeries (agg : List TimeBucket) (rid : String) : List SeriesPoint :=
  agg.map fun a => ⟨a.timestamp, lookupD a.byRegion rid 0⟩

def overallSeries (agg : List TimeBucket) : List SeriesPoint :=
  agg.map fun a => ⟨a.timestamp, a.total⟩

/-- `AnomalyDetector.detectAdmissionAnomalies`. -/
def detectAdmissionAnomalies (cfg : DetectorCfg) (sqrt : ℚ → ℚ)
    (agg : List TimeBucket) : AnomalyReport where
  overall := detectInSeries cfg sqrt (overallSeries agg)
  byDisease := fixedDiseases.map fun d => (d, detectInSeries cfg sqrt (diseaseSeries agg d))
  byRegion := (regionIdsOf agg).map fun rid => (rid, detectInSeries cfg sqrt (regionSeries agg rid))

/-- Result of `AnomalyDetector.correlate`. -/
structure CorrelationResult where
  correlation : ℚ
  significance : String
deriving DecidableEq, Inhabited

/-- The unrounded Pearson coefficient computed inside `correlate` (meaningful
under the guards `n ≥ 3`, nonzero standard deviations). -/
def correlationValue (sqrt : ℚ → ℚ) (seriesA seriesB : List SeriesPoint) : ℚ :=
  let n := min seriesA.length seriesB.length
  let a := (seriesA.take n).map (·.value)
  let b := (seriesB.take n).map (·.value)
  let meanA := statsMean a
  let meanB := statsMean b
  let sumProduct := ((a.zip b).map fun ab => (ab.1 - meanA) * (ab.2 - meanB)).sum
  sumProduct / ((n : ℚ) * statsStd sqrt a * statsStd sqrt b)

/-- The qualitative bucket assigned to the (unrounded) coefficient. -/
def significanceOf (correlation : ℚ) : String :=
  if |correlation| > 7/10 then "strong"
  else if |correlation| > 2/5 then "moderate"
  else if |correlation| > 1/5 then "weak"
  else "negligible"

/-- `AnomalyDetector.correlate`: Pearson correlation on the pairwise
truncation, with qualitative significance bucket. -/
def correlate (sqrt : ℚ → ℚ) (seriesA seriesB : List SeriesPoint) :
    CorrelationResult :=
  let n := min seriesA.length seriesB.length
  if n < 3 then ⟨0, "insufficient data"⟩
  else
    let a := (seriesA.take n).map (·.value)
    let b := (seriesB.take n).map (·.value)
    if statsStd sqrt a = 0 ∨ statsStd sqrt b = 0 then ⟨0, "no variance"⟩
    else
      ⟨round3 (correlationValue sqrt seriesA seriesB),
        significanceOf (correlationValue sqrt seriesA seriesB)⟩

/-- One row of `analyzeWaterDiseaseCorrelation`. -/
structure CorrelationRow where
  regionId : String
  disease : String
  waterMetric : String
  correlation : ℚ
  significance : String
deriving DecidableEq, Inhabited

def waterMetricValue (avg : RegionWaterAvg) (metric : String) : ℚ :=
  if metric = "avgTurbidity" then avg.avgTurbidity
  else if metric = "avgColiform" then avg.avgColiform
  else if metric = "avgPH" then avg.avgPH
  else avg.avgDO

def waterMetricSeries (waterAgg : List WaterBucket) (rid metric : String) :
    List SeriesPoint :=
  waterAgg.map fun w =>
    ⟨w.timestamp,
      jsOrDefault ((w.regionAverages.lookup rid).map (waterMetricValue · metric)) 0⟩

/-- `AnomalyDetector.analyzeWaterDiseaseCorrelation`: cross-correlate the
two waterborne-disease series against two water-degradation metrics per
region, keep non-negligible defined results, sort by `|correlation|`
descending. -/
def analyzeWaterDiseaseCorrelation (sqrt : ℚ → ℚ) (admissionAgg : List TimeBucket)
    (waterAgg : List WaterBucket) : List CorrelationRow :=
  let rowFor := fun (rid d metric : String) =>
    let res := correlate sqrt (diseaseSeries admissionAgg d)
      (waterMetricSeries waterAgg rid metric)
    if res.significance ≠ "negligible" ∧ res.significance ≠ "insufficient data"
    then [CorrelationRow.mk rid d metric res.correlation res.significance]
    else []
  let rows :=
    ((regionIdsOf admissionAgg).map fun rid =>
      ((["Cholera", "Typhoid"].map fun d =>
        ((["avgTurbidity", "avgColiform"].map fun metric => rowFor rid d metric).flatten)).flatten)).flatten
  sortByRank (fun r => -|r.correlation|) rows

/-! ## Forecaster -/

structure ForecasterCfg where
  alpha : ℚ
  trendAlpha : ℚ
  forecastHours : ℚ
  bucketHours : ℚ
deriving DecidableEq, Inhabited

/-- The configuration the pipeline uses (`{alpha: 0.3, trendAlpha: 0.1}`,
default 48h horizon at 6h buckets). -/
def defaultForecaster : ForecasterCfg := ⟨3/10, 1/10, 48, 6⟩

/-- Level/trend state plus smoothed history of `_holtSmoothing`. -/
structure HoltOut where
  level : ℚ
  trend : ℚ
  smoothed : List ℚ
deriving DecidableEq, Inhabited

/-- The loop body of `_holtSmoothing`: update level and trend, push the
new level onto the smoothed history. -/
def holtStep (cfg : ForecasterCfg) (st : HoltOut) (v : ℚ) : HoltOut :=
  let level := cfg.alpha * v + (1 - cfg.alpha) * (st.level + st.trend)
  let trend := cfg.trendAlpha * (level - st.level) + (1 - cfg.trendAlpha) * st.trend
  ⟨level, trend, st.smoothed ++ [level]⟩

/-- `Forecaster._holtSmoothing` (Holt double exponential smoothing):
level starts at the first value, trend at the difference of the first two
(`values[0] || 0` and the short-circuit return for fewer than 2 points give
the first two cases). -/
def holtSmoothing (cfg : ForecasterCfg) (values : List ℚ) : HoltOut :=
  match values with
  | [] => ⟨0, 0, []⟩
  | [v] => ⟨v, 0, [v]⟩
  | v0 :: v1 :: rest =>
      (v1 :: rest).foldl (holtStep cfg) ⟨v0, v1 - v0, [v0]⟩

/-- Mean squared error of actual vs smoothed (`_computeResiduals`). -/
def residualMse (actual smoothed : List ℚ) : ℚ :=
  ((actual.zipWith (fun a s => (a - s) ^ 2) smoothed).sum) / (actual.length : ℚ)

/-- One forecast point. -/
structure Prediction where
  timestamp : ℚ
  predicted : ℚ
  upper : ℚ
  lower : ℚ
  confidence : ℚ
deriving DecidableEq, Inhabited

/-- Result of `forecast()`.  The short-series return also carries an empty
`confidence: {upper: [], lower: []}` container and omits the numeric fields;
we model the omitted numeric fields as `0` (no claim reads them there). -/
structure ForecastResult where
  predictions : List Prediction
  trend : String
  trendValue : ℚ
  currentLevel : ℚ
  standardError : ℚ
  smoothedHistory : List SeriesPoint
deriving DecidableEq, Inhabited

def insufficientForecast : ForecastResult :=
  ⟨[], "insufficient_data", 0, 0, 0, []⟩

/-- `Forecaster.forecast`: Holt smoothing, residual standard error, and a
`ceil(forecastHours / bucketHours)`-step projection with √step-widening
confidence bands. -/
def forecast (cfg : ForecasterCfg) (sqrt : ℚ → ℚ) (series : List SeriesPoint) :
    ForecastResult :=
  if series.length < 4 then insufficientForecast
  else
    let values := series.map (·.value)
    let timestamps := series.map (·.timestamp)
    let h := holtSmoothing cfg values
    let standardError := sqrt (residualMse values h.smoothed)
    let forecastSteps := (⌈cfg.forecastHours / cfg.bucketHours⌉ : ℤ).toNat
    let lastTimestamp := timestamps.getLastD 0
    let predictions := (List.range forecastSteps).map fun (i : ℕ) =>
      let step : ℚ := (i : ℚ) + 1
      let forecastValue := max 0 (h.level + h.trend * step)
      let confidenceMultiplier := (196/100) * sqrt step
      { timestamp := (lastTimestamp : ℚ) + step * cfg.bucketHours * (msPerHour : ℚ)
        predicted := round2 forecastValue
        upper := round2 (forecastValue + standardError * confidenceMultiplier)
        lower := round2 (max 0 (forecastValue - standardError * confidenceMultiplier))
        confidence := (jsRound (max 50 (95 - step * 5)) : ℚ) }
    let trendDirection :=
      if h.trend > 1/2 then "rising"
      else if h.trend < -(1/2) then "falling"
      else "stable"
    { predictions := predictions
      trend := trendDirection
      trendValue := round2 h.trend
      currentLevel := round2 h.level
      standardError := round2 standardError
      smoothedHistory := timestamps.zipWith (fun t v => ⟨t, round2 v⟩) h.smoothed }

/-- Result of `forecastAll`.  `generatedAt` is `new Date().toISOString()`,
i.e. the wall-clock reading at run time; `forecastHorizon` is the
`"<forecastHours> hours"` template, modelled by its numeric content. -/
structure ForecastAll where
  overall : ForecastResult
  byDisease : List (String × ForecastResult)
  byRegion : List (String × ForecastResult)
  generatedAt : ℤ
  forecastHorizon : ℚ
deriving DecidableEq, Inhabited

/-- `Forecaster.forecastAll` with the wall clock `now` passed explicitly. -/
def forecastAll (cfg : ForecasterCfg) (sqrt : ℚ → ℚ) (now : ℤ)
    (agg : List TimeBucket) : ForecastAll where
  overall := forecast cfg sqrt (overallSeries agg)
  byDisease := fixedDiseases.map fun d => (d, forecast cfg sqrt (diseaseSeries agg d))
  byRegion := (regionIdsOf agg).map fun rid => (rid, forecast cfg sqrt (regionSeries agg rid))
  generatedAt := now
  forecastHorizon := cfg.forecastHours

/-! ## RiskClassifier -/

/-- One `RISK_LEVELS` entry. -/
structure RiskInfo where
  label : String
  color : String
  threshold : ℚ
  icon : String
deriving DecidableEq, Inhabited

def riskInfoOf (level : String) : RiskInfo :=
  if level = "LOW" then ⟨"Low", "#22c55e", 25/100, "OK"⟩
  else if level = "MODERATE" then ⟨"Moderate", "#f59e0b", 50/100, "WARN"⟩
  else if level = "HIGH" then ⟨"High", "#f97316", 75/100, "DIAMOND"⟩
  else ⟨"Critical", "#ef4444", 1, "SIREN"⟩

/-- A `{value, weight}` factor entry of a classification. -/
structure Factor where
  value : ℚ
  weight : ℚ
deriving DecidableEq, Inhabited

structure RiskClassification where
  regionId : String
  regionName : String
  riskScore : ℚ
  riskLevel : String
  riskInfo : RiskInfo
  fAdmissionVelocity : Factor
  fWaterQuality : Factor
  fSeverityIndex : Factor
  fHistoricalRisk : Factor
  fPopulationDensity : Factor
  fTrendScore : Factor
  population : ℚ
  centerLat : ℚ
  centerLng : ℚ
deriving DecidableEq, Inhabited

/-- `RiskClassifier._admissionVelocity`: relative change of the last 24h
(4 six-hour buckets) vs the prior 24h, `/3`, clamped to `[0,1]`. -/
def admissionVelocity (recentAdmissions : List TimeBucket) (regionId : String) : ℚ :=
  let last24h := sliceLast 4 recentAdmissions
  let prev24h := sliceNeg 8 4 recentAdmissions
  let recentCount := (last24h.map fun a => lookupD a.byRegion regionId 0).sum
  let prevSum := (prev24h.map fun a => lookupD a.byRegion regionId 0).sum
  let prevCount := if prevSum = 0 then 1 else prevSum
  let velocity := (recentCount - prevCount) / prevCount
  min 1 (max 0 (velocity / 3))

/-- `RiskClassifier._waterQualityScore`: inverted mean WQI of the last 3
water aggregates (0.5 with no water data, 50 for a missing region). -/
def waterQualityScore (waterAgg : List WaterBucket) (regionId : String) : ℚ :=
  let recentWater := sliceLast 3 waterAgg
  if recentWater.length = 0 then 1/2
  else
    let scores := recentWater.map fun w =>
      match w.regionAverages.lookup regionId with
      | none => 50
      | some d => computeWQI ⟨d.avgPH, d.avgTurbidity, d.avgColiform, d.avgDO, 1/2⟩
    1 - (scores.sum / (scores.length : ℚ)) / 100

/-- `RiskClassifier._severityIndex`: severe-case proportion over the last
48h, scaled by 3, capped at 1. -/
def severityIndex (recentAdmissions : List TimeBucket) : ℚ :=
  let last48h := sliceLast 8 recentAdmissions
  let totalSevere := (last48h.map fun a => lookupD a.bySeverity "Severe" 0).sum
  let totalSum := (last48h.map (·.total)).sum
  let total := if totalSum = 0 then 1 else totalSum
  min 1 ((totalSevere / total) * 3)

/-- `RiskClassifier._trendScore` from the trend label of the forecaster. -/
def trendScore (f : Option ForecastResult) : ℚ :=
  match f with
  | none => 1/2
  | some fr =>
      if fr.trend = "insufficient_data" then 1/2
      else if fr.trend = "rising" then min 1 (6/10 + fr.trendValue * (1/10))
      else if fr.trend = "falling" then max 0 (4/10 - |fr.trendValue| * (1/10))
      else 1/2

/-- The weighted composite risk score of `classifyRegion` (weights .30,
.25, .20, .10, .08, .07). -/
def compositeScore (region : Region) (admissionAgg : List TimeBucket)
    (waterAgg : List WaterBucket) (f : Option ForecastResult) : ℚ :=
  admissionVelocity admissionAgg region.id * (30/100)
    + waterQualityScore waterAgg region.id * (25/100)
    + severityIndex admissionAgg * (20/100)
    + region.historicalRisk * (10/100)
    + min 1 (region.population / 200000) * (8/100)
    + trendScore f * (7/100)

/-- Tier assignment of `classifyRegion`: the literal threshold products
`CRITICAL.threshold * 0.75`, `HIGH.threshold * 0.65`,
`MODERATE.threshold * 0.55` of the source. -/
def riskLevelOf (score : ℚ) : String :=
  if 1 * (75/100) ≤ score then "CRITICAL"
  else if (75/100) * (65/100) ≤ score then "HIGH"
  else if (50/100) * (55/100) ≤ score then "MODERATE"
  else "LOW"

/-- `RiskClassifier.classifyRegion`. -/
def classifyRegion (region : Region) (admissionAgg : List TimeBucket)
    (waterAgg : List WaterBucket) (f : Option ForecastResult) : RiskClassification :=
  let riskScore := compositeScore region admissionAgg waterAgg f
  { regionId := region.id
    regionName := region.name
    riskScore := round2 riskScore
    riskLevel := riskLevelOf riskScore
    riskInfo := riskInfoOf (riskLevelOf riskScore)
    fAdmissionVelocity := ⟨round2 (admissionVelocity admissionAgg region.id), 30/100⟩
    fWaterQuality := ⟨round2 (waterQualityScore waterAgg region.id), 25/100⟩
    fSeverityIndex := ⟨round2 (severityIndex admissionAgg), 20/100⟩
    fHistoricalRisk := ⟨round2 region.historicalRisk, 10/100⟩
    fPopulationDensity := ⟨round2 (min 1 (region.population / 200000)), 8/100⟩
    fTrendScore := ⟨round2 (trendScore f), 7/100⟩
    population := region.population
    centerLat := region.centerLat
    centerLng := region.centerLng }

/-- `RiskClassifier.classifyAll`: classify every region, sort by descending
score (`(a,b) => b.riskScore - a.riskScore`, stable). -/
def classifyAll (regions : List Region) (admissionAgg : List TimeBucket)
    (waterAgg : List WaterBucket) (forecasts : ForecastAll) : List RiskClassification :=
  sortByRank (fun rc => -rc.riskScore)
    (regions.map fun region =>
      classifyRegion region admissionAgg waterAgg (forecasts.byRegion.lookup region.id))

/-! ## Alert generator -/

/-- The per-kind data interpolated into the `message` template of the alert (the
rendered text is a fixed injective template over these values). -/
inductive AlertPayload where
  | risk (regionId regionName : String) (riskScore : ℚ)
  | anomaly (zScore value mean std : ℚ)
  | diseaseSpike (disease : String) (zScore value : ℚ)
deriving DecidableEq, Inhabited

structure Alert where
  id : String
  type : String
  severity : String
  timestamp : ℚ
  title : String
  payload : AlertPayload
deriving DecidableEq, Inhabited

/-- The `severityOrder` lookup in the sort comparator of `generateAlerts`:
`{ critical: 0, high: 1, moderate: 2, low: 3 }[s]`. -/
def severityOrder (s : String) : Option ℚ :=
  if s = "critical" then some 0
  else if s = "high" then some 1
  else if s = "moderate" then some 2
  else if s = "low" then some 3
  else none

/-- The comparator key `(severityOrder[a.severity] || 3)`.  Note `0` is
falsy in JS, so the `critical` rank `0` falls through to the default `3`. -/
def jsSeverityRank (s : String) : ℚ := jsOrDefault (severityOrder s) 3

/-- The risk-tier alerts (one per CRITICAL region, one per HIGH region, in
classification order). -/
def riskAlerts (now : ℤ) (cls : List RiskClassification) : List Alert :=
  (cls.map fun rc =>
    if rc.riskLevel = "CRITICAL" then
      [{ id := "ALERT-CRIT-" ++ rc.regionId
         type := "CRITICAL_RISK"
         severity := "critical"
         timestamp := (now : ℚ)
         title := "CRITICAL: " ++ rc.regionName
         payload := .risk rc.regionId rc.regionName rc.riskScore }]
    else if rc.riskLevel = "HIGH" then
      [{ id := "ALERT-HIGH-" ++ rc.regionId
         type := "HIGH_RISK"
         severity := "high"
         timestamp := (now : ℚ)
         title := "HIGH RISK: " ++ rc.regionName
         payload := .risk rc.regionId rc.regionName rc.riskScore }]
    else []).flatten

/-- The up-to-5 most recent overall anomaly alerts. -/
def overallAnomalyAlerts (report : AnomalyReport) : List Alert :=
  (sliceLast 5 (report.overall.filter (·.isAnomaly))).map fun a =>
    { id := "ALERT-ANOM-" ++ toString a.timestamp
      type := "ANOMALY_DETECTED"
      severity := if abs a.zScore > (3 : ℚ) then "critical" else "high"
      timestamp := (a.timestamp : ℚ)
      title := "Anomaly: Admission Spike"
      payload := .anomaly a.zScore a.value a.mean a.std }

/-- The up-to-2 most recent per-disease spike alerts. -/
def diseaseSpikeAlerts (report : AnomalyReport) : List Alert :=
  (report.byDisease.map fun dd =>
    (sliceLast 2 (dd.2.filter (·.isAnomaly))).map fun a =>
      { id := "ALERT-DIS-" ++ dd.1 ++ "-" ++ toString a.timestamp
        type := "DISEASE_SPIKE"
        severity := "high"
        timestamp := (a.timestamp : ℚ)
        title := dd.1 ++ " Spike Detected"
        payload := .diseaseSpike dd.1 a.zScore a.value }).flatten

/-- `RiskClassifier.generateAlerts` with the wall clock `now` explicit. -/
def generateAlerts (now : ℤ) (cls : List RiskClassification)
    (report : AnomalyReport) : List Alert :=
  sortByRank (fun a => jsSeverityRank a.severity)
    (riskAlerts now cls ++ overallAnomalyAlerts report ++ diseaseSpikeAlerts report)

/-! ## The full pipeline (`routes/api.js` `loadAndProcess`) -/

structure Snapshot where
  admissionAgg : List TimeBucket
  waterAgg : List WaterBucket
  anomalies : AnomalyReport
  correlations : List CorrelationRow
  forecasts : ForecastAll
  riskClassifications : List RiskClassification
  alerts : List Alert
deriving DecidableEq, Inhabited

/-- One full pipeline run on an in-memory record set, with the wall clock
`now` (read for `forecastAll.generatedAt` and risk-alert timestamps)
passed explicitly. -/
def runPipeline (sqrt : ℚ → ℚ) (now : ℤ) (admissions : List AdmissionRecord)
    (waterData : List WaterSample) (regions : List Region) : Snapshot :=
  let admissionAgg := aggregateAdmissions admissions 6
  let waterAgg := aggregateWaterQuality waterData 24
  let anomalies := detectAdmissionAnomalies defaultDetector sqrt admissionAgg
  let correlations := analyzeWaterDiseaseCorrelation sqrt admissionAgg waterAgg
  let forecasts := forecastAll defaultForecaster sqrt now admissionAgg
  let riskClassifications := classifyAll regions admissionAgg waterAgg forecasts
  let alerts := generateAlerts now riskClassifications anomalies
  ⟨admissionAgg, waterAgg, anomalies, correlations, forecasts, riskClassifications, alerts⟩

/-- The wall-clock-independent content of a forecast bundle (everything
except `generatedAt`). -/
def forecastsCore (f : ForecastAll) :
    ForecastResult × List (String × ForecastResult) × List (String × ForecastResult) × ℚ :=
  (f.overall, f.byDisease, f.byRegion, f.forecastHorizon)

/-- An alert with its timestamp field erased. -/
def alertCore (a : Alert) : String × String × String × String × AlertPayload :=
  (a.id, a.type, a.severity, a.title, a.payload)

/-! ## Concrete inputs used for witnesses and counterexamples -/

/-- Series with mean 0, variance 4 (std 2): used to exhibit an exact
Pearson coefficient. -/
def cexSeriesA : List SeriesPoint :=
  [⟨0, 2⟩, ⟨1, 2⟩, ⟨2, 2⟩, ⟨3, -2⟩, ⟨4, -2⟩, ⟨5, -2⟩]

/-- Series with mean 0, variance 400 (std 20), chosen so that the Pearson
coefficient against `cexSeriesA` is exactly 7/10. -/
def cexSeriesB : List SeriesPoint :=
  [⟨0, 38⟩, ⟨1, -10⟩, ⟨2, 14⟩, ⟨3, -8⟩, ⟨4, -20⟩, ⟨5, -14⟩]

/-- A constant series (value 2, length 4). -/
def constSeries2 : List SeriesPoint := [⟨0, 2⟩, ⟨1, 2⟩, ⟨2, 2⟩, ⟨3, 2⟩]

/-- A constant series of value 1/3 (not representable at two decimals). -/
def constSeriesThird : List SeriesPoint :=
  [⟨0, 1/3⟩, ⟨1, 1/3⟩, ⟨2, 1/3⟩, ⟨3, 1/3⟩]

/-- A short rising series (length 4). -/
def demoSeries4 : List SeriesPoint := [⟨0, 1⟩, ⟨1, 2⟩, ⟨2, 3⟩, ⟨3, 4⟩]

/-- A 3-point series, for the short-series sentinel. -/
def demoSeries3 : List SeriesPoint := [⟨0, 5⟩, ⟨1, 6⟩, ⟨2, 7⟩]

/-- A constant 3-point series (zero variance). -/
def demoConst3 : List SeriesPoint := [⟨0, 1⟩, ⟨1, 1⟩, ⟨2, 1⟩]

/-- A 1-point series. -/
def demoSeries1 : List SeriesPoint := [⟨0, 1⟩]

/-- A risk classification with tier CRITICAL (only the fields the alert
generator reads matter). -/
def demoCrit : RiskClassification :=
  { regionId := "R1", regionName := "North", riskScore := 8/10,
    riskLevel := "CRITICAL", riskInfo := riskInfoOf "CRITICAL",
    fAdmissionVelocity := ⟨0, 30/100⟩, fWaterQuality := ⟨0, 25/100⟩,
    fSeverityIndex := ⟨0, 20/100⟩, fHistoricalRisk := ⟨0, 10/100⟩,
    fPopulationDensity := ⟨0, 8/100⟩, fTrendScore := ⟨0, 7/100⟩,
    population := 100, centerLat := 0, centerLng := 0 }

/-- A risk classification with tier HIGH. -/
def demoHigh : RiskClassification :=
  { demoCrit with
    regionId := "R2"
    regionName := "South"
    riskScore := 5/10
    riskLevel := "HIGH" }

/-- An anomaly report with no entries at all. -/
def emptyReport : AnomalyReport := ⟨[], [], []⟩

/-- Two admission records falling in the same 6h bucket. -/
def demoAdmissions : List AdmissionRecord :=
  [⟨0, "Cholera", "Severe", "R1", 30, false⟩,
   ⟨1000, "Typhoid", "Mild", "R1", 20, true⟩]

/-! ## Helper lemmas -/

theorem jsRound_mono {a b : ℚ} (h : a ≤ b) : jsRound a ≤ jsRound b :=
  Int.floor_le_floor (by linarith)

theorem round2_mono {a b : ℚ} (h : a ≤ b) : round2 a ≤ round2 b := by
  unfold round2
  have := jsRound_mono (mul_le_mul_of_nonneg_right h (by norm_num : (0:ℚ) ≤ 100))
  have h2 : (jsRound (a * 100) : ℚ) ≤ (jsRound (b * 100) : ℚ) := Int.cast_le.mpr this
  linarith

theorem round2_zero : round2 0 = 0 := by
  unfold round2 jsRound
  norm_num

theorem round2_nonneg {a : ℚ} (h : 0 ≤ a) : 0 ≤ round2 a := by
  have := round2_mono h
  rw [round2_zero] at this
  exact this

theorem ratSqrt_nonneg (q : ℚ) : 0 ≤ ratSqrt q := by
  unfold ratSqrt
  split
  · exact le_refl 0
  · positivity

theorem ratSqrt_zero : ratSqrt 0 = 0 := rfl

theorem jsRound_zero : jsRound 0 = 0 := by norm_num [jsRound]

/-- The four-way tier split of `riskLevelOf`, as explicit intervals. -/
theorem riskLevelOf_iff (s : ℚ) :
    (riskLevelOf s = "CRITICAL" ↔ 3/4 ≤ s) ∧
    (riskLevelOf s = "HIGH" ↔ 39/80 ≤ s ∧ s < 3/4) ∧
    (riskLevelOf s = "MODERATE" ↔ 11/40 ≤ s ∧ s < 39/80) ∧
    (riskLevelOf s = "LOW" ↔ s < 11/40) := by
  have e1 : (1 : ℚ) * (75/100) = 3/4 := by norm_num
  have e2 : ((75 : ℚ)/100) * (65/100) = 39/80 := by norm_num
  have e3 : ((50 : ℚ)/100) * (55/100) = 11/40 := by norm_num
  unfold riskLevelOf
  rw [e1, e2, e3]
  split_ifs with h1 h2 h3 <;>
    refine ⟨?_, ?_, ?_, ?_⟩ <;>
    simp <;>
    first
      | linarith
      | (rintro ⟨hx, hy⟩; linarith)
      | (intro hx; linarith)
      | (constructor <;> linarith)

theorem computeWQI_le_of_raw {p q : WQIParams} (h : wqiRaw p ≤ wqiRaw q) :
    computeWQI p ≤ computeWQI q := by
  unfold computeWQI
  exact_mod_cast jsRound_mono
    (max_le_max (le_refl (0 : ℚ)) (min_le_min (le_refl (100 : ℚ)) h))

/-! ## Claims -/

/-- Claim C4: for every input series of length 0, 1, 2 or 3, forecast
returns a result with an empty predictions sequence and trend equal to
insufficient_data; it is a total function of its input, so no error can be
raised. -/
theorem claim_C4_forecast_short (cfg : ForecasterCfg) (sqrt : ℚ → ℚ)
    (series : List SeriesPoint) (h : series.length < 4) :
    (forecast cfg sqrt series).predictions = [] ∧
    (forecast cfg sqrt series).trend = "insufficient_data" := by
  unfold forecast
  rw [if_pos h]
  exact ⟨rfl, rfl⟩

/-- Witness for C4 at a concrete 3-point series. -/
theorem claim_C4_witness :
    demoSeries3.length < 4 ∧
    (forecast defaultForecaster ratSqrt demoSeries3).predictions = [] ∧
    (forecast defaultForecaster ratSqrt demoSeries3).trend = "insufficient_data" :=
  ⟨by decide, claim_C4_forecast_short defaultForecaster ratSqrt demoSeries3 (by decide)⟩

/-- Claim C1 (code bug): with one CRITICAL and one HIGH classification the
sorted alert list puts the high alert before the critical one.  The
comparator key is severityOrder[a.severity] || 3, and severityOrder maps
critical to 0, which is falsy in JS, so the critical rank collapses to the
default 3 and critical alerts sort last instead of first. -/
theorem claim_C1_generateAlerts_order :
    (generateAlerts 0 [demoCrit, demoHigh] emptyReport).map (·.severity)
      = ["high", "critical"] ∧ jsSeverityRank "critical" = 3 :=
  of_decide_eq_true (by with_unfolding_all rfl)

/-- Claim C3 counterexample: two runs of the pipeline on the identical
(here empty) input at wall-clock instants 0 and 1 produce different
outputs: the generatedAt field of the forecast bundle reads the clock, and
it is not an alert timestamp (the alert list is empty on this input). -/
theorem claim_C3_counterexample :
    (runPipeline ratSqrt 0 [] [] []).forecasts.generatedAt = 0 ∧
    (runPipeline ratSqrt 1 [] [] []).forecasts.generatedAt = 1 ∧
    runPipeline ratSqrt 0 [] [] [] ≠ runPipeline ratSqrt 1 [] [] [] ∧
    (runPipeline ratSqrt 0 [] [] []).alerts = [] :=
  of_decide_eq_true (by with_unfolding_all rfl)

/-- Claim C5 counterexample: cexSeriesA and cexSeriesB have 6 paired
samples and standard deviations 2 and 20 (both nonzero), the Pearson
coefficient is exactly 7/10, yet the significance bucket is moderate, not
strong: the code compares with strict >, so the claimed boundary
|r| = 0.7 goes to the lower bucket. -/
theorem claim_C5_counterexample :
    3 ≤ min cexSeriesA.length cexSeriesB.length ∧
    statsStd ratSqrt
        ((cexSeriesA.take (min cexSeriesA.length cexSeriesB.length)).map (·.value)) ≠ 0 ∧
    statsStd ratSqrt
        ((cexSeriesB.take (min cexSeriesA.length cexSeriesB.length)).map (·.value)) ≠ 0 ∧
    correlationValue ratSqrt cexSeriesA cexSeriesB = 7/10 ∧
    (correlate ratSqrt cexSeriesA cexSeriesB).correlation = 7/10 ∧
    (correlate ratSqrt cexSeriesA cexSeriesB).significance = "moderate" :=
  of_decide_eq_true (by with_unfolding_all rfl)

/-- Claim C7 counterexample: on the constant series of value 1/3 (length 4)
the trend is stable and the standard error is 0, but every predicted value
is 33/100, not 1/3: predictions go through two-decimal rounding, so the
claimed "predicted = v" fails for a v not representable at two decimals. -/
theorem claim_C7_counterexample :
    (forecast defaultForecaster ratSqrt constSeriesThird).trend = "stable" ∧
    ((forecast defaultForecaster ratSqrt constSeriesThird).predictions.map (·.predicted))
      = List.replicate 8 (33/100) ∧ (33 : ℚ)/100 ≠ 1/3 :=
  of_decide_eq_true (by with_unfolding_all rfl)

/-- Claim C2: the tier assigned by classifyRegion to the composite score
uses exactly the cut points: Critical iff score ≥ 0.75, High iff
0.4875 ≤ score < 0.75, Moderate iff 0.275 ≤ score < 0.4875, Low otherwise;
in particular a score of exactly 0.75 yields Critical and 0.749999 yields
High. -/
theorem claim_C2_tier_cuts (region : Region) (admissionAgg : List TimeBucket)
    (waterAgg : List WaterBucket) (f : Option ForecastResult) :
    ((classifyRegion region admissionAgg waterAgg f).riskLevel = "CRITICAL"
        ↔ 3/4 ≤ compositeScore region admissionAgg waterAgg f) ∧
    ((classifyRegion region admissionAgg waterAgg f).riskLevel = "HIGH"
        ↔ 39/80 ≤ compositeScore region admissionAgg waterAgg f
            ∧ compositeScore region admissionAgg waterAgg f < 3/4) ∧
    ((classifyRegion region admissionAgg waterAgg f).riskLevel = "MODERATE"
        ↔ 11/40 ≤ compositeScore region admissionAgg waterAgg f
            ∧ compositeScore region admissionAgg waterAgg f < 39/80) ∧
    ((classifyRegion region admissionAgg waterAgg f).riskLevel = "LOW"
        ↔ compositeScore region admissionAgg waterAgg f < 11/40) ∧
    riskLevelOf (75/100) = "CRITICAL" ∧
    riskLevelOf (749999/1000000) = "HIGH" := by
  have h := riskLevelOf_iff (compositeScore region admissionAgg waterAgg f)
  exact ⟨h.1, h.2.1, h.2.2.1, h.2.2.2,
    of_decide_eq_true (by with_unfolding_all rfl),
    of_decide_eq_true (by with_unfolding_all rfl)⟩

/-- Claim C9: computeWQI is monotonically non-increasing in turbidity and
in coliform count (all other parameters fixed), its value always lies in
[0, 100], and a coliform count of 10000 saturates the coliform sub-score
at 0. -/
theorem claim_C9_wqi_monotone :
    (∀ (p : WQIParams) (t1 t2 : ℚ), t1 ≤ t2 →
        computeWQI { p with turbidity := t2 } ≤ computeWQI { p with turbidity := t1 }) ∧
    (∀ (p : WQIParams) (c1 c2 : ℚ), c1 ≤ c2 →
        computeWQI { p with coliformCount := c2 } ≤ computeWQI { p with coliformCount := c1 }) ∧
    (∀ p : WQIParams, 0 ≤ computeWQI p ∧ computeWQI p ≤ 100) ∧
    coliformScore 10000 = 0 := by
  refine ⟨?_, ?_, ?_, of_decide_eq_true (by with_unfolding_all rfl)⟩
  · intro p t1 t2 h
    apply computeWQI_le_of_raw
    unfold wqiRaw
    dsimp only
    have ht : turbidityScore t2 ≤ turbidityScore t1 :=
      max_le_max (le_refl 0) (by linarith)
    linarith
  · intro p c1 c2 h
    apply computeWQI_le_of_raw
    unfold wqiRaw
    dsimp only
    have hc : coliformScore c2 ≤ coliformScore c1 :=
      max_le_max (le_refl 0) (by linarith)
    linarith
  · intro p
    unfold computeWQI
    constructor
    · have h0 : jsRound 0 ≤ jsRound (max 0 (min 100 (wqiRaw p))) :=
        jsRound_mono (le_max_left 0 _)
      rw [jsRound_zero] at h0
      exact_mod_cast h0
    · have h1 : jsRound (max 0 (min 100 (wqiRaw p))) ≤ jsRound 100 :=
        jsRound_mono (max_le (by norm_num) (min_le_left _ _))
      have h2 : jsRound (100 : ℚ) = 100 := by norm_num [jsRound]
      rw [h2] at h1
      exact_mod_cast h1

/-- The four-way bucket split of `significanceOf`, as explicit intervals
(strict thresholds). -/
theorem significanceOf_iff (c : ℚ) :
    (significanceOf c = "strong" ↔ 7/10 < |c|) ∧
    (significanceOf c = "moderate" ↔ 2/5 < |c| ∧ |c| ≤ 7/10) ∧
    (significanceOf c = "weak" ↔ 1/5 < |c| ∧ |c| ≤ 2/5) ∧
    (significanceOf c = "negligible" ↔ |c| ≤ 1/5) := by
  unfold significanceOf
  split_ifs with h1 h2 h3 <;>
    refine ⟨?_, ?_, ?_, ?_⟩ <;>
    simp <;>
    first
      | linarith
      | (rintro ⟨hx, hy⟩; linarith)
      | (intro hx; linarith)
      | (constructor <;> linarith)

/-- Claim C5 (amended): when correlate returns a coefficient (at least 3
paired samples, both truncated series with nonzero standard deviation), the
significance bucket is determined by the absolute unrounded coefficient
with strict thresholds: strong iff |r| > 0.7, moderate iff 0.4 < |r| ≤ 0.7,
weak iff 0.2 < |r| ≤ 0.4, negligible iff |r| ≤ 0.2 (so |r| exactly 0.7 is
moderate, exactly 0.4 weak, exactly 0.2 negligible). -/
theorem claim_C5_significance_strict (sqrt : ℚ → ℚ) (A B : List SeriesPoint)
    (hn : 3 ≤ min A.length B.length)
    (hA : statsStd sqrt ((A.take (min A.length B.length)).map (·.value)) ≠ 0)
    (hB : statsStd sqrt ((B.take (min A.length B.length)).map (·.value)) ≠ 0) :
    ((correlate sqrt A B).significance = "strong"
        ↔ 7/10 < |correlationValue sqrt A B|) ∧
    ((correlate sqrt A B).significance = "moderate"
        ↔ 2/5 < |correlationValue sqrt A B| ∧ |correlationValue sqrt A B| ≤ 7/10) ∧
    ((correlate sqrt A B).significance = "weak"
        ↔ 1/5 < |correlationValue sqrt A B| ∧ |correlationValue sqrt A B| ≤ 2/5) ∧
    ((correlate sqrt A B).significance = "negligible"
        ↔ |correlationValue sqrt A B| ≤ 1/5) := by
  have hsig : (correlate sqrt A B).significance
      = significanceOf (correlationValue sqrt A B) := by
    simp only [correlate]
    rw [if_neg (Nat.not_lt.mpr hn), if_neg (not_or.mpr ⟨hA, hB⟩)]
  rw [hsig]
  exact significanceOf_iff (correlationValue sqrt A B)

/-- Witness for C5 at a concrete strongly-correlated pair (a series against
itself, coefficient 1). -/
theorem claim_C5_witness :
    (correlate ratSqrt cexSeriesA cexSeriesA).significance = "strong" ∧
    7/10 < |correlationValue ratSqrt cexSeriesA cexSeriesA| := by
  have h := claim_C5_significance_strict ratSqrt cexSeriesA cexSeriesA
    (by decide)
    (of_decide_eq_true (by with_unfolding_all rfl))
    (of_decide_eq_true (by with_unfolding_all rfl))
  exact ⟨h.1.mpr (of_decide_eq_true (by with_unfolding_all rfl)),
    of_decide_eq_true (by with_unfolding_all rfl)⟩

/-- Claim C6: correlate returns the sentinel "insufficient data" when the
shorter series has fewer than 3 samples, returns correlation 0 with
significance "no variance" when either truncated series has zero standard
deviation, and in the remaining (coefficient-producing) case its divisor
n * stdA * stdB is nonzero, so it never divides by zero; as a total
function it raises no error. -/
theorem claim_C6_correlate_edge_cases (sqrt : ℚ → ℚ) (A B : List SeriesPoint) :
    (min A.length B.length < 3 →
      correlate sqrt A B = ⟨0, "insufficient data"⟩) ∧
    (3 ≤ min A.length B.length →
      (statsStd sqrt ((A.take (min A.length B.length)).map (·.value)) = 0 ∨
        statsStd sqrt ((B.take (min A.length B.length)).map (·.value)) = 0) →
      correlate sqrt A B = ⟨0, "no variance"⟩) ∧
    (3 ≤ min A.length B.length →
      statsStd sqrt ((A.take (min A.length B.length)).map (·.value)) ≠ 0 →
      statsStd sqrt ((B.take (min A.length B.length)).map (·.value)) ≠ 0 →
      (((min A.length B.length : ℕ) : ℚ) *
        statsStd sqrt ((A.take (min A.length B.length)).map (·.value)) *
        statsStd sqrt ((B.take (min A.length B.length)).map (·.value))) ≠ 0) := by
  refine ⟨?_, ?_, ?_⟩
  · intro h
    simp only [correlate]
    rw [if_pos h]
  · intro hn hz
    simp only [correlate]
    rw [if_neg (Nat.not_lt.mpr hn), if_pos hz]
  · intro hn hA hB
    have hna : ((min A.length B.length : ℕ) : ℚ) ≠ 0 :=
      Nat.cast_ne_zero.mpr (by omega)
    exact mul_ne_zero (mul_ne_zero hna hA) hB

/-- Witness for C6: the three cases at concrete series. -/
theorem claim_C6_witness :
    correlate ratSqrt demoSeries3 demoSeries1 = ⟨0, "insufficient data"⟩ ∧
    correlate ratSqrt demoConst3 demoSeries3 = ⟨0, "no variance"⟩ ∧
    (((min cexSeriesA.length cexSeriesB.length : ℕ) : ℚ) *
      statsStd ratSqrt
        ((cexSeriesA.take (min cexSeriesA.length cexSeriesB.length)).map (·.value)) *
      statsStd ratSqrt
        ((cexSeriesB.take (min cexSeriesA.length cexSeriesB.length)).map (·.value))) ≠ 0 := by
  refine ⟨?_, ?_, ?_⟩
  · exact (claim_C6_correlate_edge_cases ratSqrt demoSeries3 demoSeries1).1 (by decide)
  · exact (claim_C6_correlate_edge_cases ratSqrt demoConst3 demoSeries3).2.1 (by decide)
      (Or.inl (of_decide_eq_true (by with_unfolding_all rfl)))
  · exact (claim_C6_correlate_edge_cases ratSqrt cexSeriesA cexSeriesB).2.2 (by decide)
      (of_decide_eq_true (by with_unfolding_all rfl))
      (of_decide_eq_true (by with_unfolding_all rfl))

/-- On a constant input the Holt step leaves level `v` and trend `0`
unchanged and appends `v` to the history. -/
theorem holtStep_const (cfg : ForecasterCfg) (v : ℚ) (acc : List ℚ) :
    holtStep cfg ⟨v, 0, acc⟩ v = ⟨v, 0, acc ++ [v]⟩ := by
  simp only [holtStep, HoltOut.mk.injEq]
  refine ⟨by ring, by ring, ?_⟩
  congr 1
  · congr 1
    ring

/-- Folding the Holt step over a constant list keeps `(v, 0)` and appends
the constant smoothed values. -/
theorem holt_foldl_const (cfg : ForecasterCfg) (v : ℚ) :
    ∀ (l : List ℚ) (acc : List ℚ), (∀ x ∈ l, x = v) →
      l.foldl (holtStep cfg) ⟨v, 0, acc⟩ = ⟨v, 0, acc ++ l.map fun _ => v⟩ := by
  intro l
  induction l with
  | nil => intro acc _; simp
  | cons x xs ih =>
      intro acc hx
      have hxv : x = v := hx x (List.mem_cons_self x xs)
      simp only [List.foldl_cons]
      rw [hxv, holtStep_const]
      rw [ih (acc ++ [v]) (fun y hy => hx y (List.mem_cons_of_mem x hy))]
      simp

/-- Holt smoothing of a constant series of length at least 2: level `v`,
trend `0`, constant smoothed history. -/
theorem holt_const (cfg : ForecasterCfg) (v : ℚ) (l : List ℚ)
    (hl : 2 ≤ l.length) (hx : ∀ x ∈ l, x = v) :
    holtSmoothing cfg l = ⟨v, 0, l.map fun _ => v⟩ := by
  match l, hl with
  | v0 :: v1 :: rest, _ =>
      have h0 : v0 = v := hx v0 (by simp)
      have h1 : v1 = v := hx v1 (by simp)
      have hrest : ∀ x ∈ (v1 :: rest), x = v := fun x hxm => hx x (by simp_all)
      have hstart : holtSmoothing cfg (v0 :: v1 :: rest)
          = (v1 :: rest).foldl (holtStep cfg) ⟨v0, v1 - v0, [v0]⟩ := rfl
      rw [hstart, h0, h1, sub_self]
      rw [holt_foldl_const cfg v (v :: rest) [v] (h1 ▸ hrest)]
      simp

/-- The residual mean squared error of a constant series against its
(constant) smoothed history is 0. -/
theorem residualMse_const (v : ℚ) (l : List ℚ) (hx : ∀ x ∈ l, x = v) :
    residualMse l (l.map fun _ => v) = 0 := by
  unfold residualMse
  have hz : (l.zipWith (fun a s => (a - s) ^ 2) (l.map fun _ => v))
      = l.map fun _ => (0 : ℚ) := by
    induction l with
    | nil => simp
    | cons x xs ih =>
        simp only [List.map_cons, List.zipWith_cons_cons]
        rw [hx x (by simp), sub_self]
        rw [ih (fun y hy => hx y (by simp [hy]))]
        norm_num
  rw [hz]
  simp

/-- Claim C7 (amended): for every series of a single constant value v
repeated n ≥ 4 times, where v is nonnegative and representable at two
decimals (round2 v = v, as every admission count is), the forecast has
trend stable, standard error 0, and every prediction has
predicted = upper = lower = v (zero-width band); for other v the two-decimal
output rounding replaces v by round2 v.  The square-root parameter is only
used at 0 here. -/
theorem claim_C7_constant_forecast (sqrt : ℚ → ℚ) (hsq : sqrt 0 = 0) (v : ℚ)
    (hv0 : 0 ≤ v) (hvr : round2 v = v) (series : List SeriesPoint)
    (hlen : 4 ≤ series.length) (hconst : ∀ p ∈ series, p.value = v) :
    (forecast defaultForecaster sqrt series).trend = "stable" ∧
    (forecast defaultForecaster sqrt series).standardError = 0 ∧
    ∀ p ∈ (forecast defaultForecaster sqrt series).predictions,
      p.predicted = v ∧ p.upper = v ∧ p.lower = v := by
  have hvals : ∀ x ∈ series.map (·.value), x = v := by
    intro x hx
    obtain ⟨p, hp, rfl⟩ := List.mem_map.mp hx
    exact hconst p hp
  have hlen2 : 2 ≤ (series.map (·.value)).length := by
    simp only [List.length_map]
    omega
  have hholt := holt_const defaultForecaster v (series.map (·.value)) hlen2 hvals
  have hmse := residualMse_const v (series.map (·.value)) hvals
  have hnot : ¬ series.length < 4 := by omega
  unfold forecast
  rw [if_neg hnot]
  simp only [hholt, hmse, hsq]
  refine ⟨by norm_num, by rw [round2_zero], ?_⟩
  intro p hp
  simp only [List.mem_map] at hp
  obtain ⟨i, _, rfl⟩ := hp
  refine ⟨?_, ?_, ?_⟩ <;>
    simp only [zero_mul, add_zero, sub_zero, max_eq_right hv0, hvr]

/-- Witness for C7 on the constant series of value 2, length 4. -/
theorem claim_C7_witness :
    (forecast defaultForecaster ratSqrt constSeries2).trend = "stable" ∧
    (forecast defaultForecaster ratSqrt constSeries2).standardError = 0 := by
  have h := claim_C7_constant_forecast ratSqrt rfl 2 (by norm_num)
    (of_decide_eq_true (by with_unfolding_all rfl)) constSeries2 (by decide)
    (of_decide_eq_true (by with_unfolding_all rfl))
  exact ⟨h.1, h.2.1⟩

/-- The residual mean squared error is nonnegative. -/
theorem residualMse_nonneg (actual smoothed : List ℚ) :
    0 ≤ residualMse actual smoothed := by
  unfold residualMse
  apply div_nonneg _ (Nat.cast_nonneg _)
  have hz : ∀ (l1 l2 : List ℚ),
      0 ≤ (l1.zipWith (fun a s => (a - s) ^ 2) l2).sum := by
    intro l1
    induction l1 with
    | nil => intro l2; simp
    | cons x xs ih =>
        intro l2
        cases l2 with
        | nil => simp
        | cons y ys =>
            simp only [List.zipWith_cons_cons, List.sum_cons]
            exact add_nonneg (sq_nonneg _) (ih ys)
  exact hz _ _

/-- Claim C8: for every series of length at least 4, every prediction
emitted by forecast satisfies 0 ≤ lower ≤ predicted ≤ upper.  The
square-root parameter is only assumed nonnegative on nonnegative inputs,
which the real square root satisfies. -/
theorem claim_C8_forecast_bounds (sqrt : ℚ → ℚ)
    (hs : ∀ q, 0 ≤ q → 0 ≤ sqrt q)
    (series : List SeriesPoint) (hlen : 4 ≤ series.length) :
    ∀ p ∈ (forecast defaultForecaster sqrt series).predictions,
      0 ≤ p.lower ∧ p.lower ≤ p.predicted ∧ p.predicted ≤ p.upper := by
  have hnot : ¬ series.length < 4 := by omega
  unfold forecast
  rw [if_neg hnot]
  intro p hp
  simp only [List.mem_map] at hp
  obtain ⟨i, _, rfl⟩ := hp
  dsimp only
  have hse : 0 ≤ sqrt (residualMse (series.map (·.value))
      (holtSmoothing defaultForecaster (series.map (·.value))).smoothed) :=
    hs _ (residualMse_nonneg _ _)
  have hstep : 0 ≤ sqrt ((i : ℚ) + 1) := hs _ (by positivity)
  have hd : 0 ≤ sqrt (residualMse (series.map (·.value))
        (holtSmoothing defaultForecaster (series.map (·.value))).smoothed)
      * (196/100 * sqrt ((i : ℚ) + 1)) :=
    mul_nonneg hse (mul_nonneg (by norm_num) hstep)
  have hfv0 : (0 : ℚ) ≤ max 0 ((holtSmoothing defaultForecaster (series.map (·.value))).level
      + (holtSmoothing defaultForecaster (series.map (·.value))).trend * ((i : ℚ) + 1)) :=
    le_max_left _ _
  refine ⟨round2_nonneg (le_max_left _ _), round2_mono ?_, round2_mono ?_⟩
  · exact max_le hfv0 (by linarith)
  · linarith

/-- Witness for C8 on a concrete 4-point series, at the first emitted
prediction. -/
theorem claim_C8_witness :
    0 ≤ (forecast defaultForecaster ratSqrt demoSeries4).predictions.head!.lower ∧
    (forecast defaultForecaster ratSqrt demoSeries4).predictions.head!.lower
      ≤ (forecast defaultForecaster ratSqrt demoSeries4).predictions.head!.predicted ∧
    (forecast defaultForecaster ratSqrt demoSeries4).predictions.head!.predicted
      ≤ (forecast defaultForecaster ratSqrt demoSeries4).predictions.head!.upper := by
  have hne : (forecast defaultForecaster ratSqrt demoSeries4).predictions ≠ [] := by
    have hlen8 : (forecast defaultForecaster ratSqrt demoSeries4).predictions.length = 8 := by
      unfold forecast
      rw [if_neg (by decide)]
      simp only [List.length_map, List.length_range]
      have h86 : defaultForecaster.forecastHours / defaultForecaster.bucketHours = (8 : ℚ) := by
        norm_num [defaultForecaster]
      rw [h86]
      rw [show ((8 : ℚ)) = ((8 : ℤ) : ℚ) by norm_num, Int.ceil_intCast]
      rfl
    intro h
    rw [h] at hlen8
    simp at hlen8
  exact claim_C8_forecast_bounds ratSqrt (fun q _ => ratSqrt_nonneg q)
    demoSeries4 (by decide) _ (List.head!_mem_self hne)

theorem sumValues_cons (k : String) (v : ℚ) (m : List (String × ℚ)) :
    sumValues ((k, v) :: m) = v + sumValues m := by
  simp [sumValues]

/-- Incrementing one key adds exactly 1 to the value sum. -/
theorem bumpAssoc_sum (k : String) (m : List (String × ℚ)) :
    sumValues (bumpAssoc k m) = sumValues m + 1 := by
  induction m with
  | nil => simp [bumpAssoc, sumValues]
  | cons kv rest ih =>
      obtain ⟨k', v⟩ := kv
      by_cases h : k' = k
      · simp only [bumpAssoc, if_pos h, sumValues_cons]
        ring
      · simp only [bumpAssoc, if_neg h, sumValues_cons]
        rw [ih]
        ring

/-- Incrementing preserves nonnegativity of all values. -/
theorem bumpAssoc_nonneg (k : String) (m : List (String × ℚ))
    (h : ∀ kv ∈ m, 0 ≤ kv.2) : ∀ kv ∈ bumpAssoc k m, 0 ≤ kv.2 := by
  induction m with
  | nil =>
      intro kv hkv
      simp only [bumpAssoc, List.mem_singleton] at hkv
      rw [hkv]
      norm_num
  | cons kv0 rest ih =>
      obtain ⟨k', v⟩ := kv0
      intro kv hkv
      by_cases hk : k' = k
      · simp only [bumpAssoc, if_pos hk, List.mem_cons] at hkv
        rcases hkv with hkv | hkv
        · rw [hkv]
          have : 0 ≤ v := h (k', v) (by simp)
          simpa using by linarith
        · exact h kv (by simp [hkv])
      · simp only [bumpAssoc, if_neg hk, List.mem_cons] at hkv
        rcases hkv with hkv | hkv
        · exact hkv ▸ h (k', v) (by simp)
        · exact ih (fun kv2 hkv2 => h kv2 (by simp [hkv2])) kv hkv

/-- Counting a record list adds its length to the value sum of the initial
map. -/
theorem countRecords_sum (key : AdmissionRecord → String) :
    ∀ (rs : List AdmissionRecord) (init : List (String × ℚ)),
      sumValues (countRecords key init rs) = sumValues init + rs.length := by
  intro rs
  induction rs with
  | nil => intro init; simp [countRecords]
  | cons r rest ih =>
      intro init
      have hstep : countRecords key init (r :: rest)
          = countRecords key (bumpAssoc (key r) init) rest := rfl
      rw [hstep, ih, bumpAssoc_sum]
      simp only [List.length_cons]
      push_cast
      ring

/-- Counting preserves nonnegativity of all values. -/
theorem countRecords_nonneg (key : AdmissionRecord → String) :
    ∀ (rs : List AdmissionRecord) (init : List (String × ℚ)),
      (∀ kv ∈ init, 0 ≤ kv.2) → ∀ kv ∈ countRecords key init rs, 0 ≤ kv.2 := by
  intro rs
  induction rs with
  | nil => intro init h; exact h
  | cons r rest ih =>
      intro init h
      have hstep : countRecords key init (r :: rest)
          = countRecords key (bumpAssoc (key r) init) rest := rfl
      rw [hstep]
      exact ih _ (bumpAssoc_nonneg (key r) init h)

theorem insStable_perm [LinearOrder β] (rank : α → β) (x : α) (l : List α) :
    (insStable rank x l).Perm (x :: l) := by
  induction l with
  | nil => simp [insStable]
  | cons y ys ih =>
      by_cases h : rank x ≤ rank y
      · simp [insStable, h]
      · simp only [insStable, if_neg h]
        exact (ih.cons y).trans (List.Perm.swap x y ys)

theorem sortByRank_perm [LinearOrder β] (rank : α → β) (l : List α) :
    (sortByRank rank l).Perm l := by
  induction l with
  | nil => simp [sortByRank]
  | cons x xs ih => exact (insStable_perm rank x (sortByRank rank xs)).trans (ih.cons x)

/-- Pushing one record grows the total group size by 1. -/
theorem pushGroup_sizes [DecidableEq K] (k : K) (r : α) :
    ∀ gs : List (K × List α),
      ((pushGroup k r gs).map (fun kg => kg.2.length)).sum
        = ((gs.map (fun kg => kg.2.length)).sum) + 1 := by
  intro gs
  induction gs with
  | nil => simp [pushGroup]
  | cons kg0 rest ih =>
      obtain ⟨k', g⟩ := kg0
      by_cases h : k' = k
      · simp only [pushGroup, if_pos h, List.map_cons, List.sum_cons, List.length_append,
          List.length_singleton]
        omega
      · simp only [pushGroup, if_neg h, List.map_cons, List.sum_cons]
        omega

/-- Grouping assigns every record to exactly one group. -/
theorem timeBucketBy_sizes (ts : α → ℤ) (bucketHours : ℕ) :
    ∀ (l : List α) (gs : List (ℤ × List α)),
      (((l.foldl (fun gs r => pushGroup (bucketStart bucketHours (ts r)) r gs) gs).map
          (fun kg => kg.2.length)).sum)
        = ((gs.map (fun kg => kg.2.length)).sum) + l.length := by
  intro l
  induction l with
  | nil => intro gs; simp
  | cons r rest ih =>
      intro gs
      simp only [List.foldl_cons, List.length_cons]
      rw [ih, pushGroup_sizes]
      omega

/-- Claim C10: in every bucket produced by aggregateAdmissions the
byDisease, byRegion and bySeverity values each sum to the bucket total
(= number of records in the bucket), all counts are nonnegative, and the
totals of all buckets sum to the length of the input list (every record is
counted in exactly one bucket). -/
theorem claim_C10_bucket_invariants (admissions : List AdmissionRecord) (bucketHours : ℕ) :
    (∀ b ∈ aggregateAdmissions admissions bucketHours,
      sumValues b.byDisease = b.total ∧
      sumValues b.byRegion = b.total ∧
      sumValues b.bySeverity = b.total ∧
      (∀ kv ∈ b.byDisease, 0 ≤ kv.2) ∧
      (∀ kv ∈ b.byRegion, 0 ≤ kv.2) ∧
      (∀ kv ∈ b.bySeverity, 0 ≤ kv.2) ∧
      0 ≤ b.total) ∧
    ((aggregateAdmissions admissions bucketHours).map (·.total)).sum
      = (admissions.length : ℚ) := by
  constructor
  · intro b hb
    have hperm := sortByRank_perm (fun b : TimeBucket => b.timestamp)
      ((timeBucketBy (·.timestamp) admissions bucketHours).map (fun kg => mkBucket kg.1 kg.2))
    have hb2 : b ∈ (timeBucketBy (·.timestamp) admissions bucketHours).map
        (fun kg => mkBucket kg.1 kg.2) := hperm.subset hb
    obtain ⟨kg, _, rfl⟩ := List.mem_map.mp hb2
    refine ⟨?_, ?_, ?_, ?_, ?_, ?_, ?_⟩
    · rw [show (mkBucket kg.1 kg.2).byDisease = countRecords (·.disease) [] kg.2 from rfl,
        countRecords_sum]
      simp [sumValues, mkBucket]
    · rw [show (mkBucket kg.1 kg.2).byRegion = countRecords (·.regionId) [] kg.2 from rfl,
        countRecords_sum]
      simp [sumValues, mkBucket]
    · rw [show (mkBucket kg.1 kg.2).bySeverity
          = countRecords (·.severity) [("Mild", 0), ("Moderate", 0), ("Severe", 0)] kg.2 from rfl,
        countRecords_sum]
      simp [sumValues, mkBucket]
    · exact countRecords_nonneg _ kg.2 [] (by simp)
    · exact countRecords_nonneg _ kg.2 [] (by simp)
    · exact countRecords_nonneg _ kg.2 _ (by norm_num)
    · exact Nat.cast_nonneg _
  · have hperm := sortByRank_perm (fun b : TimeBucket => b.timestamp)
      ((timeBucketBy (·.timestamp) admissions bucketHours).map (fun kg => mkBucket kg.1 kg.2))
    unfold aggregateAdmissions
    rw [(hperm.map (·.total)).sum_eq, List.map_map]
    have htot : ((fun b : TimeBucket => b.total) ∘ fun kg : ℤ × List AdmissionRecord =>
        mkBucket kg.1 kg.2) = fun kg : ℤ × List AdmissionRecord => ((kg.2.length : ℕ) : ℚ) := rfl
    rw [htot]
    have hcast : ((timeBucketBy (·.timestamp) admissions bucketHours).map
          (fun kg : ℤ × List AdmissionRecord => ((kg.2.length : ℕ) : ℚ))).sum
        = ((((timeBucketBy (·.timestamp) admissions bucketHours).map
            (fun kg => kg.2.length)).sum : ℕ) : ℚ) := by
      rw [Nat.cast_list_sum, List.map_map]
      rfl
    rw [hcast]
    have := timeBucketBy_sizes (fun r : AdmissionRecord => r.timestamp) bucketHours admissions []
    unfold timeBucketBy
    rw [this]
    simp

/-- Witness for C10 on two concrete records in the same bucket. -/
theorem claim_C10_witness :
    sumValues ((aggregateAdmissions demoAdmissions 6).head!).byDisease
      = ((aggregateAdmissions demoAdmissions 6).head!).total ∧
    ((aggregateAdmissions demoAdmissions 6).map (·.total)).sum
      = (demoAdmissions.length : ℚ) := by
  have h := claim_C10_bucket_invariants demoAdmissions 6
  refine ⟨?_, h.2⟩
  have hne : aggregateAdmissions demoAdmissions 6 ≠ [] :=
    of_decide_eq_true (by with_unfolding_all rfl)
  exact (h.1 _ (List.head!_mem_self hne)).1

/-- Mapping commutes with stable insertion when the rank is preserved. -/
theorem insStable_map {γ : Type} [LinearOrder γ] (ra : α → γ) (rb : β → γ)
    (f : α → β) (hf : ∀ a, rb (f a) = ra a) (x : α) :
    ∀ l : List α, (insStable ra x l).map f = insStable rb (f x) (l.map f) := by
  intro l
  induction l with
  | nil => simp [insStable]
  | cons y ys ih =>
      by_cases h : ra x ≤ ra y
      · simp [insStable, hf, h]
      · simp [insStable, hf, h, ih]

/-- Mapping commutes with the stable sort when the rank is preserved. -/
theorem sortByRank_map {γ : Type} [LinearOrder γ] (ra : α → γ) (rb : β → γ)
    (f : α → β) (hf : ∀ a, rb (f a) = ra a) :
    ∀ l : List α, (sortByRank ra l).map f = sortByRank rb (l.map f) := by
  intro l
  induction l with
  | nil => simp [sortByRank]
  | cons x xs ih =>
      simp only [sortByRank, List.map_cons]
      rw [insStable_map ra rb f hf, ih]

/-- Erasing timestamps from the risk-tier alerts gives the same list for
any two clock readings. -/
theorem riskAlerts_core (now1 now2 : ℤ) (cls : List RiskClassification) :
    (riskAlerts now1 cls).map alertCore = (riskAlerts now2 cls).map alertCore := by
  induction cls with
  | nil => rfl
  | cons rc rest ih =>
      simp only [riskAlerts, List.map_cons, List.flatten_cons, List.map_append] at *
      rw [ih]
      congr 1
      by_cases h1 : rc.riskLevel = "CRITICAL"
      · simp [h1, alertCore]
      · by_cases h2 : rc.riskLevel = "HIGH"
        · simp [h1, h2, alertCore]
        · simp [h1, h2]

/-- Erasing timestamps makes `generateAlerts` independent of the clock
reading: the comparator key only reads the severity, which the erasure
preserves. -/
theorem generateAlerts_core (now1 now2 : ℤ) (cls : List RiskClassification)
    (anoms : AnomalyReport) :
    (generateAlerts now1 cls anoms).map alertCore
      = (generateAlerts now2 cls anoms).map alertCore := by
  unfold generateAlerts
  rw [sortByRank_map (fun a => jsSeverityRank a.severity)
      (fun t => jsSeverityRank t.2.2.1) alertCore (fun a => rfl),
    sortByRank_map (fun a => jsSeverityRank a.severity)
      (fun t => jsSeverityRank t.2.2.1) alertCore (fun a => rfl)]
  congr 1
  simp only [List.map_append]
  rw [riskAlerts_core now1 now2]

/-- Claim C3 (amended): two pipeline runs on the identical immutable input
set agree on every aggregate, anomaly, correlation, forecast and
classification output and on every alert field except that the generatedAt
field of the forecast bundle and the alert timestamps read the wall clock;
no other field depends on the current time, and the embedding is a pure
function, so there is no hidden randomness. -/
theorem claim_C3_pipeline_time_independent (sqrt : ℚ → ℚ) (now1 now2 : ℤ)
    (admissions : List AdmissionRecord) (waterData : List WaterSample)
    (regions : List Region) :
    (runPipeline sqrt now1 admissions waterData regions).admissionAgg
      = (runPipeline sqrt now2 admissions waterData regions).admissionAgg ∧
    (runPipeline sqrt now1 admissions waterData regions).waterAgg
      = (runPipeline sqrt now2 admissions waterData regions).waterAgg ∧
    (runPipeline sqrt now1 admissions waterData regions).anomalies
      = (runPipeline sqrt now2 admissions waterData regions).anomalies ∧
    (runPipeline sqrt now1 admissions waterData regions).correlations
      = (runPipeline sqrt now2 admissions waterData regions).correlations ∧
    forecastsCore (runPipeline sqrt now1 admissions waterData regions).forecasts
      = forecastsCore (runPipeline sqrt now2 admissions waterData regions).forecasts ∧
    (runPipeline sqrt now1 admissions waterData regions).riskClassifications
      = (runPipeline sqrt now2 admissions waterData regions).riskClassifications ∧
    (runPipeline sqrt now1 admissions waterData regions).alerts.map alertCore
      = (runPipeline sqrt now2 admissions waterData regions).alerts.map alertCore := by
  refine ⟨rfl, rfl, rfl, rfl, rfl, rfl, ?_⟩
  exact generateAlerts_core now1 now2 _ _

/-- Witness for C9 at concrete parameters. -/
theorem claim_C9_witness :
    computeWQI { pH := 7, turbidity := 5, coliformCount := 10, dissolvedOxygen := 8,
                 chlorineResidual := 1/2 }
      ≤ computeWQI { pH := 7, turbidity := 1, coliformCount := 10, dissolvedOxygen := 8,
                     chlorineResidual := 1/2 } ∧
    0 ≤ computeWQI { pH := 7, turbidity := 1, coliformCount := 10, dissolvedOxygen := 8,
                     chlorineResidual := 1/2 } := by
  constructor
  · exact claim_C9_wqi_monotone.1
      { pH := 7, turbidity := 1, coliformCount := 10, dissolvedOxygen := 8,
        chlorineResidual := 1/2 } 1 5 (by norm_num)
  · exact (claim_C9_wqi_monotone.2.2.1
      { pH := 7, turbidity := 1, coliformCount := 10, dissolvedOxygen := 8,
        chlorineResidual := 1/2 }).1

end EpiWatch
